import Mathlib

/-!
Verification development for the defguard-client repository.

The repository ships three artifacts: a release workflow, the generated
`typesafe-i18n` locale type declarations, and the
`detectBrowserEngine` browser probe.  The core background service
(TunnelManager, StatsCollector, EnrollmentSession, ConfigProvisioner,
InstanceRegistry) described by the specification is not present among the
source files, so those components are modelled from the specification text
and each such definition says so in its doc comment.
-/

namespace Defguard

/-! ## Browser engine probe (from src/src/components/App/detectBrowserEngine.ts) -/

/-- A JavaScript value as far as the probe's callers can observe it:
either `undefined` or a boolean. -/
inductive JsValue
  | undef
  | bool (b : Bool)
deriving DecidableEq

/-- The `ua-parser-js` parser object, constructed from `navigator.userAgent`. -/
structure UAParser where
  userAgent : String
deriving DecidableEq

/-- External library `ua-parser-js`: `parser.getResult()`; its value is opaque
to this repository, modelled as a string derived from the user agent. -/
def UAParser.getResult (p : UAParser) : String :=
  "result " ++ p.userAgent

/-- External library `ua-parser-js`: `parser.getEngine()`; opaque to this
repository, modelled as a string derived from the user agent. -/
def UAParser.getEngine (p : UAParser) : String :=
  "engine " ++ p.userAgent

/-- `detectBrowserEngine` from detectBrowserEngine.ts: builds a `UAParser`
over `navigator.userAgent`, logs `getResult()`, logs `getEngine()`, and has
no return statement, so the arrow function evaluates to `undefined`.
Returns the produced value together with the list of console.log entries. -/
def detectBrowserEngine (userAgent : String) : JsValue × List String :=
  let parser : UAParser := ⟨userAgent⟩
  let result := parser.getResult
  let engine := parser.getEngine
  (JsValue.undef, [result, engine])

/-! ## Locale declarations (from the generated typesafe-i18n types file) -/

/-- The `Locales` union type of the generated i18n types file: it enumerates
exactly one member, the string literal type for English. -/
def Locales : List String := ["en"]

/-- `BaseLocale` from the generated i18n types file. -/
def BaseLocale : String := "en"

/-! ## Core background service, modelled from the spec

The tunnel lifecycle, statistics collection, enrollment and provisioning
code is not among the repository's source files; every definition below is
modelled from the specification sections cited in its doc comment. -/

/-- Modelled from the spec (§7): the tunnel error taxonomy
`TunnelError{AlreadyActive, HandshakeTimeout, InterfaceLost, ProcessSpawnFailed}`. -/
inductive TunnelError
  | AlreadyActive
  | HandshakeTimeout
  | InterfaceLost
  | ProcessSpawnFailed
deriving DecidableEq

/-- Modelled from the spec (§4.1): the tunnel lifecycle states, with
`Failed(reason)` reachable from any state. -/
inductive TunnelState
  | Disconnected
  | Connecting
  | Connected
  | Disconnecting
  | Failed (reason : TunnelError)
deriving DecidableEq

/-- Modelled from the spec (§3): a TunnelHandle is runtime-only and wraps
the OS network interface identifier and the supervised data-plane process
handle for one Location, plus its lifecycle phase. -/
structure TunnelHandle where
  locationId : Nat
  interfaceName : String
  processId : Nat
  phase : TunnelState
deriving DecidableEq

/-- Modelled from the spec (§3): an Instance record held by InstanceRegistry. -/
structure Instance where
  id : Nat
  name : String
  base_url : String
  enrollment_token : Option String
  auth_token : Option String
deriving DecidableEq

/-- Modelled from the spec (§3): a Location (one tunnel definition);
`local_private_key` exists only while a configuration is held in memory. -/
structure Location where
  id : Nat
  instance_id : Nat
  name : String
  peer_public_key : Nat
  endpoint : String
  allowed_ips : List String
  dns : List String
  mtu : Nat
  local_private_key : Option Nat
deriving DecidableEq

/-- Modelled from the spec (§2, §3): the durable registry of instances and
their locations. -/
structure InstanceRegistry where
  instances : List Instance
  locations : List Location
deriving DecidableEq

/-- Modelled from the spec (§3): a ConnectionRecord of the statistics
history; `ended_at` is set exactly when the record is sealed. -/
structure ConnectionRecord where
  location_id : Nat
  started_at : Nat
  ended_at : Option Nat
  bytes_up : Nat
  bytes_down : Nat
  last_handshake_at : Option Nat
deriving DecidableEq

/-- Modelled from the spec (§2, §5): the state shared by TunnelManager and
StatsCollector: the handle arena keyed by location id, the global interface
table, the supervised data-plane processes, the per-location status surfaced
to callers, the registry, and the connection history. -/
structure SystemState where
  handles : List TunnelHandle
  interfaces : List String
  processes : List Nat
  statuses : List (Nat × TunnelState)
  registry : InstanceRegistry
  records : List ConnectionRecord
  nextPid : Nat
deriving DecidableEq

/-- Modelled from the spec (§4.1): whether a TunnelHandle currently exists
for the location (a connect in flight counts: the handle is created when
`connect` starts). -/
def hasHandle (s : SystemState) (locId : Nat) : Bool :=
  s.handles.any (fun h => h.locationId == locId)

/-- Modelled from the spec (§4.1): the interface name the manager allocates
for a location. -/
def ifaceName (locId : Nat) : String :=
  "wg" ++ toString locId

/-- Modelled from the spec (§4.1): the per-location status exposed by
`status(location_id)`. -/
def status (s : SystemState) (locId : Nat) : TunnelState :=
  match s.statuses.find? (fun p => p.1 == locId) with
  | some p => p.2
  | none => TunnelState.Disconnected

/-- Modelled from the spec (§4.1, §5): tear down the interface and the
data-plane process recorded in the location's handle, and drop the handle;
safe when no handle exists. -/
def teardown (s : SystemState) (locId : Nat) : SystemState :=
  let ifaces := match s.handles.find? (fun h => h.locationId == locId) with
    | none => s.interfaces
    | some h => s.interfaces.filter (fun i => i != h.interfaceName)
  let procs := match s.handles.find? (fun h => h.locationId == locId) with
    | none => s.processes
    | some h => s.processes.filter (fun p => p != h.processId)
  { s with handles := s.handles.filter (fun x => x.locationId != locId),
           interfaces := ifaces,
           processes := procs }

/-- Modelled from the spec (§4.1): the first half of `connect`: reject with
`AlreadyActive` when a handle exists, else allocate the interface name,
write the configuration, start the data-plane process, and register the
in-flight handle in `Connecting` state. -/
def connectStart (s : SystemState) (loc : Location) :
    SystemState × Except TunnelError TunnelHandle :=
  if hasHandle s loc.id then (s, Except.error TunnelError.AlreadyActive)
  else
    let iface := ifaceName loc.id
    let pid := s.nextPid
    let h : TunnelHandle := ⟨loc.id, iface, pid, TunnelState.Connecting⟩
    ({ s with handles := h :: s.handles,
              interfaces := iface :: s.interfaces,
              processes := pid :: s.processes,
              statuses := (loc.id, TunnelState.Connecting) :: s.statuses,
              nextPid := pid + 1 },
     Except.ok h)

/-- Modelled from the spec (§4.1, §4.2): the second half of `connect`:
wait for the first successful handshake or the bounded timeout.  On
handshake, declare `Connected` and emit `on_connected` to StatsCollector
(opening a ConnectionRecord); on timeout, tear the interface and process
down and fail with `HandshakeTimeout`. -/
def connectFinish (s : SystemState) (h : TunnelHandle) (handshakeOk : Bool)
    (t : Nat) : SystemState × Except TunnelError TunnelHandle :=
  if handshakeOk then
    let h2 : TunnelHandle := { h with phase := TunnelState.Connected }
    ({ s with handles := s.handles.map
                (fun x => if x.locationId == h.locationId then h2 else x),
              statuses := (h.locationId, TunnelState.Connected) :: s.statuses,
              records := ⟨h.locationId, t, none, 0, 0, none⟩ :: s.records },
     Except.ok h2)
  else
    let s1 := teardown s h.locationId
    ({ s1 with statuses :=
        (h.locationId, TunnelState.Failed TunnelError.HandshakeTimeout) :: s1.statuses },
     Except.error TunnelError.HandshakeTimeout)

/-- Modelled from the spec (§4.1): `connect(location)`; `handshakeOk` is the
environment's answer to "did the first handshake arrive within the bounded
timeout", `t` the wall-clock instant of the outcome. -/
def connect (s : SystemState) (loc : Location) (handshakeOk : Bool) (t : Nat) :
    SystemState × Except TunnelError TunnelHandle :=
  match connectStart s loc with
  | (s1, Except.error e) => (s1, Except.error e)
  | (s1, Except.ok h) => connectFinish s1 h handshakeOk t

/-- Modelled from the spec (§4.2): seal one in-progress record of the
location: set `ended_at`, keep the last known good counters; sealed
records and other locations' records are untouched. -/
def sealRecord (locId t : Nat) (r : ConnectionRecord) : ConnectionRecord :=
  if r.location_id == locId && r.ended_at == none then
    { r with ended_at := some t }
  else r

/-- Modelled from the spec (§4.2): `on_disconnected` seals the location's
in-progress records. -/
def sealRecords (rs : List ConnectionRecord) (locId t : Nat) :
    List ConnectionRecord :=
  rs.map (sealRecord locId t)

/-- Modelled from the spec (§4.1): `disconnect(location_id)`: with no
active handle it is a no-op returning success; otherwise it tears the
interface and process down, seals the in-progress record, and reports
`Disconnected`. -/
def disconnect (s : SystemState) (locId : Nat) (t : Nat) :
    SystemState × Except TunnelError Unit :=
  if hasHandle s locId then
    let s1 := teardown s locId
    ({ s1 with records := sealRecords s1.records locId t,
               statuses := (locId, TunnelState.Disconnected) :: s1.statuses },
     Except.ok ())
  else (s, Except.ok ())

/-- Modelled from the spec (§4.2): one sampling step applied to a single
record: an in-progress record of the location is advanced monotonically;
when the fresh counters are below the stored ones (counter reset) the old
record is sealed instead of being patched; sealed records are untouched. -/
def updateRec (locId up down ht now : Nat) (r : ConnectionRecord) :
    ConnectionRecord :=
  if r.location_id == locId && r.ended_at == none then
    if r.bytes_up ≤ up && r.bytes_down ≤ down then
      { r with bytes_up := up, bytes_down := down, last_handshake_at := some ht }
    else { r with ended_at := some now }
  else r

/-- Modelled from the spec (§4.2): whether the fresh reading is a counter
reset relative to the location's in-progress record. -/
def resetDetected (rs : List ConnectionRecord) (locId up down : Nat) : Bool :=
  rs.any (fun r => r.location_id == locId && r.ended_at == none
            && !(r.bytes_up ≤ up && r.bytes_down ≤ down))

/-- Modelled from the spec (§4.2): the fresh ConnectionRecord started by a
counter reset. -/
def newRec (locId now up down ht : Nat) : ConnectionRecord :=
  ⟨locId, now, none, up, down, some ht⟩

/-- Modelled from the spec (§4.2): `sample(location_id)`: a successful
reading `(up, down, handshake)` updates the in-progress record
monotonically, a counter reset seals it and starts a new record, and a
failed reading (interface vanished) is an implicit disconnect: the record
is sealed with the last known good values and `Failed(InterfaceLost)` is
surfaced upstream. -/
def sample (s : SystemState) (locId : Nat)
    (reading : Option (Nat × Nat × Nat)) (now : Nat) :
    SystemState × Option TunnelError :=
  match reading with
  | none =>
      let s1 := teardown s locId
      ({ s1 with records := sealRecords s1.records locId now,
                 statuses :=
                   (locId, TunnelState.Failed TunnelError.InterfaceLost) :: s1.statuses },
       some TunnelError.InterfaceLost)
  | some (up, down, ht) =>
      let rs := s.records.map (updateRec locId up down ht now)
      let rs2 := if resetDetected s.records locId up down then
          newRec locId now up down ht :: rs
        else rs
      ({ s with records := rs2 }, none)

/-- Modelled from the spec (§4.1, §4.2): the externally triggered
operations on the shared state. -/
inductive Op
  | opConnect (loc : Location) (handshakeOk : Bool) (t : Nat)
  | opDisconnect (locId : Nat) (t : Nat)
  | opSample (locId : Nat) (reading : Option (Nat × Nat × Nat)) (t : Nat)

/-- Modelled from the spec: the state reached by one operation. -/
def step (s : SystemState) : Op → SystemState
  | Op.opConnect loc hk t => (connect s loc hk t).1
  | Op.opDisconnect locId t => (disconnect s locId t).1
  | Op.opSample locId reading t => (sample s locId reading t).1

/-- Modelled from the spec (§3, §8): the mutual exclusion invariant — at
most one TunnelHandle per location, phrased as: the location ids of the
live handles are pairwise distinct. -/
def atMostOne (s : SystemState) : Prop :=
  (s.handles.map (fun h => h.locationId)).Nodup

/-! ### EnrollmentSession, modelled from the spec (§4.3) -/

/-- Modelled from the spec (§7): the enrollment error taxonomy. -/
inductive EnrollmentError
  | InvalidToken
  | ValidationError
  | Expired
deriving DecidableEq

/-- Modelled from the spec (§4.3): the enrollment phases, linear with an
optional DeviceSetup branch and a global `Expired` escape. -/
inductive EnrollPhase
  | TokenEntry
  | Verifying
  | DataVerification
  | PasswordSetup
  | DeviceSetup
  | Finished
  | Expired
deriving DecidableEq

/-- Modelled from the spec (§3): the EnrollmentState singleton;
`expires_at` is absent until `Verifying` succeeds. -/
structure EnrollmentState where
  token : String
  expires_at : Option Nat
  phase : EnrollPhase
  collected_identity : Option String
  collected_password_hash : Option String
deriving DecidableEq

/-- Modelled from the spec (§4.3): the per-phase input handed to
`advance(step_input)`. -/
structure StepInput where
  identity : String
  identityOk : Bool
  password : String
  passwordConfirm : String
deriving DecidableEq

/-- Modelled from the spec (§4.3): `submit_token` moves
`TokenEntry → Verifying`; in any other phase it is rejected. -/
def submit_token (es : EnrollmentState) (tok : String) :
    EnrollmentState × Except EnrollmentError Unit :=
  if es.phase == EnrollPhase.TokenEntry then
    ({ es with token := tok, phase := EnrollPhase.Verifying }, Except.ok ())
  else (es, Except.error EnrollmentError.ValidationError)

/-- Modelled from the spec (§4.3): the remote verification outcome: success
fixes `expires_at := now + expires_in` and moves to `DataVerification`;
failure returns to `TokenEntry` with `InvalidToken` and does not expire the
session. -/
def verifyOutcome (es : EnrollmentState) (ok : Bool) (expires_in now : Nat) :
    EnrollmentState × Except EnrollmentError Unit :=
  if es.phase == EnrollPhase.Verifying then
    if ok then
      ({ es with expires_at := some (now + expires_in),
                 phase := EnrollPhase.DataVerification }, Except.ok ())
    else ({ es with phase := EnrollPhase.TokenEntry },
          Except.error EnrollmentError.InvalidToken)
  else (es, Except.error EnrollmentError.ValidationError)

/-- Modelled from the spec (§4.3): the terminal phases. -/
def isTerminal (p : EnrollPhase) : Bool :=
  p == EnrollPhase.Finished || p == EnrollPhase.Expired

/-- Modelled from the spec (§4.3, §9): expiry is a pure predicate of the
wall clock against the stored deadline. -/
def isExpired (es : EnrollmentState) (now : Nat) : Bool :=
  match es.expires_at with
  | none => false
  | some e => decide (e < now)

/-- Modelled from the spec (§4.3): `time_remaining()` for UI polling. -/
def time_remaining (es : EnrollmentState) (now : Nat) : Nat :=
  match es.expires_at with
  | none => 0
  | some e => e - now

/-- Modelled from the spec (§4.3): `advance(step_input)`: expiry is checked
lazily on every call and wins over phase validation; on expiry the
collected identity and password material is discarded; otherwise the
current phase's input is validated and the session moves on, else
`ValidationError`. -/
def advance (es : EnrollmentState) (input : StepInput) (now : Nat) :
    EnrollmentState × Except EnrollmentError Unit :=
  if isTerminal es.phase then (es, Except.error EnrollmentError.ValidationError)
  else if isExpired es now then
    ({ es with phase := EnrollPhase.Expired,
               collected_identity := none,
               collected_password_hash := none },
     Except.error EnrollmentError.Expired)
  else
    match es.phase with
    | EnrollPhase.DataVerification =>
        if input.identityOk then
          ({ es with phase := EnrollPhase.PasswordSetup,
                     collected_identity := some input.identity }, Except.ok ())
        else (es, Except.error EnrollmentError.ValidationError)
    | EnrollPhase.PasswordSetup =>
        if input.password == input.passwordConfirm then
          ({ es with phase := EnrollPhase.DeviceSetup,
                     collected_password_hash := some input.password },
           Except.ok ())
        else (es, Except.error EnrollmentError.ValidationError)
    | EnrollPhase.DeviceSetup =>
        ({ es with phase := EnrollPhase.Finished }, Except.ok ())
    | _ => (es, Except.error EnrollmentError.ValidationError)

/-- Modelled from the spec (§4.3): the operations that drive one
enrollment session. -/
inductive EnrollOp
  | submit (tok : String)
  | verify (ok : Bool) (expires_in : Nat) (now : Nat)
  | adv (input : StepInput) (now : Nat)

/-- Modelled from the spec: the session state reached by one enrollment
operation. -/
def estep (es : EnrollmentState) : EnrollOp → EnrollmentState
  | EnrollOp.submit tok => (submit_token es tok).1
  | EnrollOp.verify ok d now => (verifyOutcome es ok d now).1
  | EnrollOp.adv input now => (advance es input now).1

/-- Modelled from the spec (§4.3): once the deadline is set the session has
left the token phases; `expires_at` is only ever written by a successful
`Verifying` step. -/
def enrollInv (es : EnrollmentState) : Prop :=
  es.expires_at.isSome = true →
    es.phase ≠ EnrollPhase.TokenEntry ∧ es.phase ≠ EnrollPhase.Verifying

/-! ### ConfigProvisioner, modelled from the spec (§4.4) -/

/-- Modelled from the spec (§7): the provisioning error taxonomy. -/
inductive ProvisionError
  | Network
  | Rejected (reason : String)
deriving DecidableEq

/-- Modelled from the spec (§4.4): the key mode of `provision`. -/
inductive KeyMode
  | Generate
  | UseProvidedPublicKey (key : Nat)
deriving DecidableEq

/-- Modelled from the spec (§4.4, §6): the peer configuration produced for
the data plane: the device's public key as registered with the remote side,
and the remote peer's parameters. -/
structure PeerConfig where
  device_public_key : Nat
  peer_public_key : Nat
  endpoint : String
  allowed_ips : List String
  dns : List String
  mtu : Nat
deriving DecidableEq

/-- Modelled from the spec (§4.4): the environment of one `provision`
call: whether the network and the remote side cooperate, the entropy a
`Generate` call would turn into a fresh private key, and the remote
side's answer. -/
structure ProvisionEnv where
  networkOk : Bool
  accepted : Bool
  rejectReason : String
  freshPrivateKey : Nat
  remotePeerPublicKey : Nat
  remoteEndpoint : String
  remoteAllowedIps : List String
  remoteDns : List String
  remoteMtu : Nat
  newLocationId : Nat
deriving DecidableEq

/-- Modelled from the spec (§4.4): the public key derived from a private
key, abstracted to an injective arithmetic map. -/
def derivePublicKey (sk : Nat) : Nat :=
  2 * sk + 1

/-- Modelled from the spec (§4.4, §7): `provision`: network failure yields
`Network`, remote rejection yields `Rejected`, both leaving the registry
unmodified; on success a Location is committed, with the private key
retained in memory only under `Generate` and never created under
`UseProvidedPublicKey`. -/
def provision (reg : InstanceRegistry) (inst : Instance) (device_name : String)
    (mode : KeyMode) (env : ProvisionEnv) :
    InstanceRegistry × Except ProvisionError (Location × PeerConfig) :=
  if env.networkOk = false then (reg, Except.error ProvisionError.Network)
  else if env.accepted = false then
    (reg, Except.error (ProvisionError.Rejected env.rejectReason))
  else
    let devicePub := match mode with
      | KeyMode.Generate => derivePublicKey env.freshPrivateKey
      | KeyMode.UseProvidedPublicKey k => k
    let localKey : Option Nat := match mode with
      | KeyMode.Generate => some env.freshPrivateKey
      | KeyMode.UseProvidedPublicKey _ => none
    let loc : Location :=
      ⟨env.newLocationId, inst.id, device_name, env.remotePeerPublicKey,
       env.remoteEndpoint, env.remoteAllowedIps, env.remoteDns, env.remoteMtu,
       localKey⟩
    let cfg : PeerConfig :=
      ⟨devicePub, env.remotePeerPublicKey, env.remoteEndpoint,
       env.remoteAllowedIps, env.remoteDns, env.remoteMtu⟩
    ({ reg with locations := loc :: reg.locations }, Except.ok (loc, cfg))

/-! ## Theorems -/

/-- C9: for every value of `navigator.userAgent`, `detectBrowserEngine`
returns `undefined` — never `true` or `false`, despite the accompanying
comment describing a boolean probe — and its only observable effects are
the two `console.log` calls, logging `getResult()` and `getEngine()`. -/
theorem detectBrowserEngine_returns_undefined (userAgent : String) :
    (detectBrowserEngine userAgent).1 = JsValue.undef
    ∧ (detectBrowserEngine userAgent).2 =
        [UAParser.getResult ⟨userAgent⟩, UAParser.getEngine ⟨userAgent⟩]
    ∧ (detectBrowserEngine userAgent).2.length = 2 :=
  ⟨rfl, rfl, rfl⟩

/-- C10: the translation layer supports exactly one locale: `Locales`
enumerates only `"en"`, which is also `BaseLocale`, so every localized
string is drawn from the single English translation tree. -/
theorem locales_only_english :
    Locales = ["en"] ∧ BaseLocale = "en"
    ∧ Locales.all (fun l => l == BaseLocale) = true :=
  ⟨rfl, rfl, rfl⟩

/-- C4: a `provision` call that fails with `Network` or `Rejected` leaves
the InstanceRegistry exactly as it was: no partial Location is ever
committed on a failed provisioning. -/
theorem provision_failure_preserves_registry (reg : InstanceRegistry)
    (inst : Instance) (device_name : String) (mode : KeyMode)
    (env : ProvisionEnv) (err : ProvisionError)
    (h : (provision reg inst device_name mode env).2 = Except.error err) :
    (provision reg inst device_name mode env).1 = reg := by
  rcases hn : env.networkOk with _ | _
  · simp [provision, hn]
  · rcases ha : env.accepted with _ | _
    · simp [provision, hn, ha]
    · simp [provision, hn, ha] at h

/-- Witness for C4 at a concrete failing environment. -/
theorem provision_failure_preserves_registry_witness :
    (provision ⟨[], []⟩ ⟨1, "acme", "https://acme.example", none, none⟩ "laptop"
        KeyMode.Generate ⟨false, false, "bad token", 5, 7, "vpn:51820", [], [], 1420, 3⟩).1
      = (⟨[], []⟩ : InstanceRegistry) :=
  provision_failure_preserves_registry _ _ _ _ _ ProvisionError.Network rfl

/-- C8: a successful `provision` with `Generate` yields a peer
configuration whose device public key is derived from the locally retained
private key, and with `UseProvidedPublicKey` the Location carries no local
private key and the result never depends on the key-generation entropy. -/
theorem provision_key_roundtrip (reg : InstanceRegistry) (inst : Instance)
    (device_name : String) (env : ProvisionEnv) (k : Nat)
    (loc locp : Location) (cfg cfgp : PeerConfig)
    (hgen : (provision reg inst device_name KeyMode.Generate env).2
      = Except.ok (loc, cfg))
    (hpub : (provision reg inst device_name (KeyMode.UseProvidedPublicKey k) env).2
      = Except.ok (locp, cfgp)) :
    loc.local_private_key = some env.freshPrivateKey
    ∧ cfg.device_public_key = derivePublicKey env.freshPrivateKey
    ∧ locp.local_private_key = none
    ∧ (∀ sk : Nat,
        provision reg inst device_name (KeyMode.UseProvidedPublicKey k)
          { env with freshPrivateKey := sk }
        = provision reg inst device_name (KeyMode.UseProvidedPublicKey k) env) := by
  rcases hn : env.networkOk with _ | _
  · simp [provision, hn] at hgen
  · rcases ha : env.accepted with _ | _
    · simp [provision, hn, ha] at hgen
    · simp [provision, hn, ha] at hgen hpub
      refine ⟨?_, ?_, ?_, ?_⟩
      · rw [← hgen.1]
      · rw [← hgen.2]
      · rw [← hpub.1]
      · intro sk
        simp [provision, hn, ha]

/-- Witness for C8 at a concrete successful environment. -/
theorem provision_key_roundtrip_witness :
    (⟨12, 1, "laptop", 7, "vpn:51820", ["10.0.0.0/24"], ["10.0.0.1"], 1420, some 5⟩ :
        Location).local_private_key = some 5
    ∧ (⟨derivePublicKey 5, 7, "vpn:51820", ["10.0.0.0/24"], ["10.0.0.1"], 1420⟩ :
        PeerConfig).device_public_key = derivePublicKey 5
    ∧ (⟨12, 1, "laptop", 7, "vpn:51820", ["10.0.0.0/24"], ["10.0.0.1"], 1420, none⟩ :
        Location).local_private_key = none
    ∧ (∀ sk : Nat,
        provision ⟨[], []⟩ ⟨1, "acme", "https://acme.example", none, none⟩ "laptop"
          (KeyMode.UseProvidedPublicKey 9)
          { networkOk := true, accepted := true, rejectReason := "",
            freshPrivateKey := sk, remotePeerPublicKey := 7,
            remoteEndpoint := "vpn:51820", remoteAllowedIps := ["10.0.0.0/24"],
            remoteDns := ["10.0.0.1"], remoteMtu := 1420, newLocationId := 12 }
        = provision ⟨[], []⟩ ⟨1, "acme", "https://acme.example", none, none⟩ "laptop"
          (KeyMode.UseProvidedPublicKey 9)
          ⟨true, true, "", 5, 7, "vpn:51820", ["10.0.0.0/24"], ["10.0.0.1"], 1420, 12⟩) :=
  provision_key_roundtrip ⟨[], []⟩ ⟨1, "acme", "https://acme.example", none, none⟩
    "laptop" ⟨true, true, "", 5, 7, "vpn:51820", ["10.0.0.0/24"], ["10.0.0.1"], 1420, 12⟩
    9 _ _ _ _ rfl rfl

/-- Helper: `advance` never writes `expires_at`. -/
theorem advance_expires_at (es : EnrollmentState) (input : StepInput) (now : Nat) :
    (advance es input now).1.expires_at = es.expires_at := by
  unfold advance
  rcases es with ⟨tok, ex, ph, ci, cp⟩
  cases ph <;> simp [isTerminal] <;> split <;> first
    | rfl
    | (split <;> rfl)

/-- C2: once the deadline is set, in every non-terminal phase a late
`advance` fails with `Expired`; `time_remaining` is non-increasing in the
wall clock; and `expires_at`, once fixed by a successful `Verifying` step,
is never changed by any later operation. -/
theorem enrollment_deadline (es : EnrollmentState) (op : EnrollOp)
    (input : StepInput) (e now now1 now2 : Nat)
    (hset : es.expires_at = some e) :
    (isTerminal es.phase = false → e < now →
      (advance es input now).2 = Except.error EnrollmentError.Expired)
    ∧ (now1 ≤ now2 → time_remaining es now2 ≤ time_remaining es now1)
    ∧ (enrollInv es → (estep es op).expires_at = some e) := by
  refine ⟨?_, ?_, ?_⟩
  · intro hterm hlt
    simp [advance, hterm, isExpired, hset, hlt]
  · intro hle
    simp only [time_remaining, hset]
    exact Nat.sub_le_sub_left hle e
  · intro hinv
    have hps : es.expires_at.isSome = true := by rw [hset]; rfl
    obtain ⟨h1, h2⟩ := hinv hps
    cases op with
    | submit tok =>
        have : (es.phase == EnrollPhase.TokenEntry) = false := by
          simp [h1]
        simp [estep, submit_token, this, hset]
    | verify ok d n =>
        have : (es.phase == EnrollPhase.Verifying) = false := by
          simp [h2]
        simp [estep, verifyOutcome, this, hset]
    | adv i n =>
        simp [estep, advance_expires_at, hset]

/-- Witness for C2: a `PasswordSetup` session whose 600-second allotment
has elapsed (601 seconds after `expires_at` was fixed at 600). -/
theorem enrollment_deadline_witness :
    (advance ⟨"abc123", some 600, EnrollPhase.PasswordSetup, some "user", none⟩
        ⟨"user", true, "pw", "pw"⟩ 601).2 = Except.error EnrollmentError.Expired
    ∧ time_remaining
        ⟨"abc123", some 600, EnrollPhase.PasswordSetup, some "user", none⟩ 20
      ≤ time_remaining
        ⟨"abc123", some 600, EnrollPhase.PasswordSetup, some "user", none⟩ 10
    ∧ (estep ⟨"abc123", some 600, EnrollPhase.PasswordSetup, some "user", none⟩
        (EnrollOp.adv ⟨"user", true, "pw", "pw"⟩ 601)).expires_at = some 600 := by
  have h := enrollment_deadline
    ⟨"abc123", some 600, EnrollPhase.PasswordSetup, some "user", none⟩
    (EnrollOp.adv ⟨"user", true, "pw", "pw"⟩ 601)
    ⟨"user", true, "pw", "pw"⟩ 600 601 10 20 rfl
  exact ⟨h.1 (by decide) (by decide), h.2.1 (by decide),
    h.2.2 (fun _ => ⟨by decide, by decide⟩)⟩

/-- C3: one sampling step never decreases a record's counters, never
changes its `started_at` identity, leaves every sealed record untouched,
and a counter reset starts a fresh record instead of patching the old one. -/
theorem sample_monotone_and_sealed (s : SystemState) (locId up down ht now : Nat)
    (r : ConnectionRecord) (hr : r ∈ s.records) :
    (updateRec locId up down ht now r)
      ∈ (sample s locId (some (up, down, ht)) now).1.records
    ∧ r.bytes_up ≤ (updateRec locId up down ht now r).bytes_up
    ∧ r.bytes_down ≤ (updateRec locId up down ht now r).bytes_down
    ∧ (updateRec locId up down ht now r).started_at = r.started_at
    ∧ (r.ended_at.isSome = true → updateRec locId up down ht now r = r)
    ∧ (resetDetected s.records locId up down = true →
        newRec locId now up down ht
          ∈ (sample s locId (some (up, down, ht)) now).1.records) := by
  have hrec : (sample s locId (some (up, down, ht)) now).1.records
      = if resetDetected s.records locId up down then
          newRec locId now up down ht
            :: s.records.map (updateRec locId up down ht now)
        else s.records.map (updateRec locId up down ht now) := rfl
  have hm : updateRec locId up down ht now r
      ∈ s.records.map (updateRec locId up down ht now) :=
    List.mem_map_of_mem _ hr
  refine ⟨?_, ?_, ?_, ?_, ?_, ?_⟩
  · rw [hrec]
    split
    · exact List.mem_cons_of_mem _ hm
    · exact hm
  · unfold updateRec
    split
    · split
      · rename_i hc
        simp only [Bool.and_eq_true, decide_eq_true_eq] at hc
        exact hc.1
      · exact Nat.le_refl _
    · exact Nat.le_refl _
  · unfold updateRec
    split
    · split
      · rename_i hc
        simp only [Bool.and_eq_true, decide_eq_true_eq] at hc
        exact hc.2
      · exact Nat.le_refl _
    · exact Nat.le_refl _
  · unfold updateRec
    split
    · split <;> rfl
    · rfl
  · intro hsome
    rcases hend : r.ended_at with _ | v
    · rw [hend] at hsome
      cases hsome
    · simp [updateRec, hend]
  · intro hrd
    rw [hrec, if_pos hrd]
    exact List.mem_cons_self _ _

/-- Witness for C3: a live record at `(up, down) = (100, 50)` sampled at
`(250, 120)` does not decrease and stays in the history. -/
theorem sample_monotone_and_sealed_witness :
    (⟨7, 0, none, 100, 50, some 9⟩ : ConnectionRecord).bytes_up
      ≤ (updateRec 7 250 120 12 13 ⟨7, 0, none, 100, 50, some 9⟩).bytes_up
    ∧ (updateRec 7 250 120 12 13 ⟨7, 0, none, 100, 50, some 9⟩)
      ∈ (sample ⟨[], [], [], [], ⟨[], []⟩, [⟨7, 0, none, 100, 50, some 9⟩], 0⟩ 7
          (some (250, 120, 12)) 13).1.records := by
  have h := sample_monotone_and_sealed
    ⟨[], [], [], [], ⟨[], []⟩, [⟨7, 0, none, 100, 50, some 9⟩], 0⟩ 7 250 120 12 13
    ⟨7, 0, none, 100, 50, some 9⟩ (by decide)
  exact ⟨h.2.1, h.1⟩

/-- C5: when sampling fails because the interface vanished, the
in-progress record is sealed with `ended_at` set and the last good
counters, the record is kept, and `Failed(InterfaceLost)` is surfaced to
the caller. -/
theorem sample_interface_lost (s : SystemState) (locId now : Nat)
    (r : ConnectionRecord) (hr : r ∈ s.records) (hloc : r.location_id = locId)
    (hopen : r.ended_at = none) :
    (sample s locId none now).2 = some TunnelError.InterfaceLost
    ∧ status (sample s locId none now).1 locId
        = TunnelState.Failed TunnelError.InterfaceLost
    ∧ { r with ended_at := some now } ∈ (sample s locId none now).1.records
    ∧ (sample s locId none now).1.records.length = s.records.length := by
  have hrec : (sample s locId none now).1.records
      = s.records.map (sealRecord locId now) := rfl
  have hst : (sample s locId none now).1.statuses
      = (locId, TunnelState.Failed TunnelError.InterfaceLost)
          :: (teardown s locId).statuses := rfl
  refine ⟨rfl, ?_, ?_, ?_⟩
  · rw [status, hst]
    simp [List.find?]
  · rw [hrec]
    have hseal : sealRecord locId now r = { r with ended_at := some now } := by
      simp [sealRecord, hloc, hopen]
    exact hseal ▸ List.mem_map_of_mem _ hr
  · rw [hrec]
    exact List.length_map _ _

/-- Witness for C5, scenario D: samples `(100, 50)` then `(250, 120)`,
then the interface disappears; the sealed record keeps `(250, 120)` and
`Failed(InterfaceLost)` is surfaced. -/
theorem sample_interface_lost_witness :
    (sample (sample (sample
        ⟨[⟨7, "wg7", 1, TunnelState.Connected⟩], ["wg7"], [1],
          [(7, TunnelState.Connected)], ⟨[], []⟩, [⟨7, 0, none, 0, 0, none⟩], 2⟩
        7 (some (100, 50, 10)) 11).1 7 (some (250, 120, 12)) 13).1 7 none 14).2
      = some TunnelError.InterfaceLost
    ∧ (⟨7, 0, some 14, 250, 120, some 12⟩ : ConnectionRecord)
      ∈ (sample (sample (sample
          ⟨[⟨7, "wg7", 1, TunnelState.Connected⟩], ["wg7"], [1],
            [(7, TunnelState.Connected)], ⟨[], []⟩, [⟨7, 0, none, 0, 0, none⟩], 2⟩
          7 (some (100, 50, 10)) 11).1 7 (some (250, 120, 12)) 13).1 7 none 14).1.records := by
  have h := sample_interface_lost
    (sample (sample
        ⟨[⟨7, "wg7", 1, TunnelState.Connected⟩], ["wg7"], [1],
          [(7, TunnelState.Connected)], ⟨[], []⟩, [⟨7, 0, none, 0, 0, none⟩], 2⟩
        7 (some (100, 50, 10)) 11).1 7 (some (250, 120, 12)) 13).1
    7 14 ⟨7, 0, none, 250, 120, some 12⟩ (by decide) rfl rfl
  exact ⟨h.1, h.2.2.1⟩

/-- Helper: removing a location's handles leaves none behind. -/
theorem any_filter_locId (hs : List TunnelHandle) (locId : Nat) :
    ((hs.filter (fun x => x.locationId != locId)).any
      (fun x => x.locationId == locId)) = false := by
  induction hs with
  | nil => rfl
  | cons a l ih =>
      by_cases hc : a.locationId = locId
      · simp only [List.filter_cons, hc, bne_self_eq_false, if_false]
        exact ih
      · simp only [List.filter_cons]
        rw [if_pos (by simp [hc]), List.any_cons, ih]
        simp [hc]

/-- Helper: a value never survives filtering by difference from itself. -/
theorem not_mem_filter_bne {α : Type} [BEq α] [LawfulBEq α] (l : List α) (x : α) :
    x ∉ l.filter (fun y => y != x) := by
  intro hmem
  have h := (List.mem_filter.1 hmem).2
  simp at h

/-- Helper: `teardown` leaves no handle for the location. -/
theorem hasHandle_teardown (s : SystemState) (locId : Nat) :
    hasHandle (teardown s locId) locId = false := by
  have h : (teardown s locId).handles
      = s.handles.filter (fun x => x.locationId != locId) := rfl
  rw [hasHandle, h]
  exact any_filter_locId s.handles locId

/-- Helper: after any `disconnect`, no handle remains for the location. -/
theorem hasHandle_after_disconnect (s : SystemState) (locId t : Nat) :
    hasHandle (disconnect s locId t).1 locId = false := by
  rcases hh : hasHandle s locId with _ | _
  · simp [disconnect, hh]
  · have h1 : (disconnect s locId t).1.handles
        = (teardown s locId).handles := by
      simp [disconnect, hh]
    rw [hasHandle, h1]
    exact hasHandle_teardown s locId

/-- C6: `disconnect` is idempotent: on a location with no active handle it
returns success and leaves the whole state (handles, registry, records)
unchanged, and a second `disconnect` right after a first one returns
success without further effect. -/
theorem disconnect_idempotent (s s2 : SystemState) (locId t t2 t3 : Nat)
    (hno : hasHandle s locId = false) :
    disconnect s locId t = (s, Except.ok ())
    ∧ disconnect (disconnect s2 locId t2).1 locId t3
        = ((disconnect s2 locId t2).1, Except.ok ()) := by
  constructor
  · simp [disconnect, hno]
  · have h := hasHandle_after_disconnect s2 locId t2
    generalize hX : (disconnect s2 locId t2).1 = X at h ⊢
    simp [disconnect, h]

/-- Witness for C6: an empty manager and a manager with one live handle. -/
theorem disconnect_idempotent_witness :
    disconnect ⟨[], [], [], [], ⟨[], []⟩, [], 0⟩ 7 5
      = (⟨[], [], [], [], ⟨[], []⟩, [], 0⟩, Except.ok ())
    ∧ disconnect
        (disconnect ⟨[⟨7, "wg7", 1, TunnelState.Connected⟩], ["wg7"], [1],
          [(7, TunnelState.Connected)], ⟨[], []⟩, [⟨7, 0, none, 5, 5, none⟩], 2⟩ 7 5).1 7 6
      = ((disconnect ⟨[⟨7, "wg7", 1, TunnelState.Connected⟩], ["wg7"], [1],
          [(7, TunnelState.Connected)], ⟨[], []⟩, [⟨7, 0, none, 5, 5, none⟩], 2⟩ 7 5).1,
         Except.ok ()) :=
  disconnect_idempotent ⟨[], [], [], [], ⟨[], []⟩, [], 0⟩
    ⟨[⟨7, "wg7", 1, TunnelState.Connected⟩], ["wg7"], [1],
      [(7, TunnelState.Connected)], ⟨[], []⟩, [⟨7, 0, none, 5, 5, none⟩], 2⟩
    7 5 5 6 (by decide)

/-- C7: a `connect` whose first handshake does not arrive within the
bounded timeout returns `Failed(HandshakeTimeout)` and tears down the
interface and the data-plane process it allocated: neither leaks. -/
theorem connect_timeout_teardown (s : SystemState) (loc : Location) (t : Nat)
    (hno : hasHandle s loc.id = false) :
    (connect s loc false t).2 = Except.error TunnelError.HandshakeTimeout
    ∧ hasHandle (connect s loc false t).1 loc.id = false
    ∧ ifaceName loc.id ∉ (connect s loc false t).1.interfaces
    ∧ s.nextPid ∉ (connect s loc false t).1.processes := by
  have hconn : connect s loc false t
      = ({ s with
            handles := s.handles.filter (fun x => x.locationId != loc.id),
            interfaces := s.interfaces.filter (fun i => i != ifaceName loc.id),
            processes := s.processes.filter (fun p => p != s.nextPid),
            statuses := (loc.id, TunnelState.Failed TunnelError.HandshakeTimeout)
              :: (loc.id, TunnelState.Connecting) :: s.statuses,
            nextPid := s.nextPid + 1 },
         Except.error TunnelError.HandshakeTimeout) := by
    simp [connect, connectStart, hno, connectFinish, teardown,
      List.find?_cons_of_pos, List.filter_cons]
  rw [hconn]
  refine ⟨rfl, ?_, ?_, ?_⟩
  · exact any_filter_locId s.handles loc.id
  · exact not_mem_filter_bne s.interfaces (ifaceName loc.id)
  · exact not_mem_filter_bne s.processes s.nextPid

/-- Witness for C7: a timed-out connect from the empty manager state. -/
theorem connect_timeout_teardown_witness :
    (connect ⟨[], [], [], [], ⟨[], []⟩, [], 0⟩
        ⟨7, 1, "home", 3, "vpn:51820", [], [], 1420, none⟩ false 5).2
      = Except.error TunnelError.HandshakeTimeout
    ∧ ifaceName 7 ∉ (connect ⟨[], [], [], [], ⟨[], []⟩, [], 0⟩
        ⟨7, 1, "home", 3, "vpn:51820", [], [], 1420, none⟩ false 5).1.interfaces
    ∧ (0 : Nat) ∉ (connect ⟨[], [], [], [], ⟨[], []⟩, [], 0⟩
        ⟨7, 1, "home", 3, "vpn:51820", [], [], 1420, none⟩ false 5).1.processes := by
  have h := connect_timeout_teardown ⟨[], [], [], [], ⟨[], []⟩, [], 0⟩
    ⟨7, 1, "home", 3, "vpn:51820", [], [], 1420, none⟩ 5 (by decide)
  exact ⟨h.1, h.2.2.1, h.2.2.2⟩

/-- Helper: a location with no handle does not occur among the handle ids. -/
theorem not_mem_ids_of_no_handle (s : SystemState) (locId : Nat)
    (hh : hasHandle s locId = false) :
    locId ∉ s.handles.map (fun x => x.locationId) := by
  intro hmem
  rcases List.mem_map.1 hmem with ⟨x, hx, hxe⟩
  have hany : s.handles.any (fun h => h.locationId == locId) = true :=
    List.any_eq_true.2 ⟨x, hx, by simp [hxe]⟩
  rw [hasHandle, hany] at hh
  cases hh

/-- Helper: filtering the handle arena preserves distinctness of ids. -/
theorem nodup_ids_filter (hs : List TunnelHandle) (q : TunnelHandle → Bool)
    (hn : (hs.map (fun x => x.locationId)).Nodup) :
    ((hs.filter q).map (fun x => x.locationId)).Nodup :=
  List.Nodup.sublist (List.Sublist.map _ (List.filter_sublist _)) hn

/-- Helper: a map that fixes every handle's location id fixes the id list. -/
theorem ids_map_preserve (hs : List TunnelHandle) (f : TunnelHandle → TunnelHandle)
    (hf : ∀ x, (f x).locationId = x.locationId) :
    (hs.map f).map (fun x => x.locationId) = hs.map (fun x => x.locationId) := by
  induction hs with
  | nil => rfl
  | cons a l ih => simp [hf, ih]

/-- Helper: `connectFinish` preserves distinctness of the handle ids. -/
theorem connectFinish_handles (s : SystemState) (h : TunnelHandle) (hk : Bool)
    (t : Nat) (hn : (s.handles.map (fun x => x.locationId)).Nodup) :
    ((connectFinish s h hk t).1.handles.map (fun x => x.locationId)).Nodup := by
  cases hk
  · have heq : (connectFinish s h false t).1.handles
        = s.handles.filter (fun x => x.locationId != h.locationId) := rfl
    rw [heq]
    exact nodup_ids_filter _ _ hn
  · have heq : (connectFinish s h true t).1.handles
        = s.handles.map (fun x =>
            if x.locationId == h.locationId then
              { h with phase := TunnelState.Connected } else x) := rfl
    rw [heq, ids_map_preserve]
    · exact hn
    · intro x
      split
      · rename_i hx
        simp only [beq_iff_eq] at hx
        simp [hx]
      · rfl

/-- Helper: every operation preserves the mutual exclusion invariant. -/
theorem step_preserves_atMostOne (s : SystemState) (op : Op)
    (hinv : atMostOne s) : atMostOne (step s op) := by
  cases op with
  | opConnect loc hk t =>
      rcases hh : hasHandle s loc.id with _ | _
      · have hc : connect s loc hk t
            = connectFinish
                { s with
                  handles := ⟨loc.id, ifaceName loc.id, s.nextPid,
                    TunnelState.Connecting⟩ :: s.handles,
                  interfaces := ifaceName loc.id :: s.interfaces,
                  processes := s.nextPid :: s.processes,
                  statuses := (loc.id, TunnelState.Connecting) :: s.statuses,
                  nextPid := s.nextPid + 1 }
                ⟨loc.id, ifaceName loc.id, s.nextPid, TunnelState.Connecting⟩
                hk t := by
          simp [connect, connectStart, hh]
        simp only [atMostOne, step, hc]
        apply connectFinish_handles
        simp only [List.map_cons]
        exact List.nodup_cons.2 ⟨not_mem_ids_of_no_handle s loc.id hh, hinv⟩
      · have hc : connect s loc hk t
            = (s, Except.error TunnelError.AlreadyActive) := by
          simp [connect, connectStart, hh]
        simp only [atMostOne, step, hc]
        exact hinv
  | opDisconnect locId t =>
      rcases hh : hasHandle s locId with _ | _
      · have hc : (disconnect s locId t).1 = s := by
          simp [disconnect, hh]
        simp only [atMostOne, step, hc]
        exact hinv
      · have heq : (disconnect s locId t).1.handles
            = s.handles.filter (fun x => x.locationId != locId) := by
          simp [disconnect, hh, teardown]
        simp only [atMostOne, step]
        rw [heq]
        exact nodup_ids_filter _ _ hinv
  | opSample locId reading t =>
      rcases reading with _ | ⟨up, down, ht⟩
      · have heq : (sample s locId none t).1.handles
            = s.handles.filter (fun x => x.locationId != locId) := rfl
        simp only [atMostOne, step]
        rw [heq]
        exact nodup_ids_filter _ _ hinv
      · have heq : (sample s locId (some (up, down, ht)) t).1.handles
            = s.handles := rfl
        simp only [atMostOne, step]
        rw [heq]
        exact hinv

/-- C1: at most one TunnelHandle exists per location — the invariant is
preserved by every operation — and a `connect` issued while a handle for
the location already exists (a prior connect in flight included) returns
`AlreadyActive` and leaves the state, hence the handle arena, unchanged. -/
theorem tunnel_mutual_exclusion (s : SystemState) (op : Op) (loc : Location)
    (hk : Bool) (t : Nat) (hinv : atMostOne s)
    (hactive : hasHandle s loc.id = true) :
    atMostOne (step s op)
    ∧ connect s loc hk t = (s, Except.error TunnelError.AlreadyActive) := by
  refine ⟨step_preserves_atMostOne s op hinv, ?_⟩
  simp [connect, connectStart, hactive]

/-- Witness for C1: a second connect against an in-flight handle for
location 7 is rejected, and a disconnect keeps the invariant. -/
theorem tunnel_mutual_exclusion_witness :
    atMostOne (step ⟨[⟨7, "wg7", 1, TunnelState.Connecting⟩], ["wg7"], [1],
        [(7, TunnelState.Connecting)], ⟨[], []⟩, [], 2⟩ (Op.opDisconnect 7 5))
    ∧ connect ⟨[⟨7, "wg7", 1, TunnelState.Connecting⟩], ["wg7"], [1],
        [(7, TunnelState.Connecting)], ⟨[], []⟩, [], 2⟩
        ⟨7, 1, "home", 3, "vpn:51820", [], [], 1420, none⟩ true 9
      = (⟨[⟨7, "wg7", 1, TunnelState.Connecting⟩], ["wg7"], [1],
          [(7, TunnelState.Connecting)], ⟨[], []⟩, [], 2⟩,
         Except.error TunnelError.AlreadyActive) :=
  tunnel_mutual_exclusion
    ⟨[⟨7, "wg7", 1, TunnelState.Connecting⟩], ["wg7"], [1],
      [(7, TunnelState.Connecting)], ⟨[], []⟩, [], 2⟩
    (Op.opDisconnect 7 5) ⟨7, 1, "home", 3, "vpn:51820", [], [], 1420, none⟩
    true 9 (by unfold atMostOne; decide) (by decide)

end Defguard
